import Mathlib

/-!
Shallow embedding of the reconciliation utilities of the gateway-operator
repository, together with theorems settling the frozen claims about them.

The definitions below are direct translations of the Go functions in
`controller/controlplane/controller_reconciler_utils.go` and
`controller/konnect/konnectextension_controller_utils.go`.
Strings stay strings, slices become lists, Go `nil`-able pointers become
`Option`, and the Kubernetes client calls are replaced by explicit state
passed in as arguments (the listed children, the grant objects present,
the outcome of a status write).
-/

/-! ### Certificate sanitization (`sanitizeCert`, konnectextension_controller_utils.go) -/

/-- Go `strings.TrimSuffix(cert, "\n")`: removes one trailing newline
character, if present.  We work on `List Char` as the carrier of Go
strings. -/
def trimSuffixNewline (s : List Char) : List Char :=
  if s.getLast? = some '\n' then s.dropLast else s

/-- Go `strings.ReplaceAll(cert, "\r", "")`: removes every carriage
return. -/
def removeCarriageReturns (s : List Char) : List Char :=
  s.filter (fun c => c ≠ '\r')

/-- `sanitizeCert` from konnectextension_controller_utils.go:
trim one trailing newline, then delete all carriage returns. -/
def sanitizeCert (s : List Char) : List Char :=
  removeCarriageReturns (trimSuffixNewline s)

/-! ### RBAC scope partitioning (`processClusterRole`, controller_reconciler_utils.go)

The Go function iterates over the rules of the generated ClusterRole and,
for each (apiGroup, resource) pair, looks the resource up in the discovery
mapping `gvl : map[schema.GroupVersion]*metav1.APIResourceList`.  The Go
`for ... range` loops and the in-place mutation `rule.Resources =
[]string{resource}` are translated faithfully: the inner loop iterates over
the snapshot of `rule.Resources` taken when the loop starts, while the
mutated field (threaded below as `cur`) is what subsequent appends and the
next apiGroup iteration observe. -/

/-- `rbacv1.PolicyRule`, restricted to the fields `processClusterRole`
reads or writes. -/
structure PolicyRule where
  apiGroups : List String
  resources : List String
  verbs : List String
deriving DecidableEq, Repr

/-- `metav1.APIResource`, restricted to the fields used by the lookup. -/
structure APIResource where
  group : String
  name : String
  namespaced : Bool
deriving DecidableEq, Repr

/-- `schema.GroupVersion`. -/
structure GroupVersion where
  group : String
  version : String
deriving DecidableEq, Repr

/-- The discovery mapping: Go map modeled as an association list (one
iteration order of the Go map). -/
def GVL := List (GroupVersion × List APIResource)

/-- The inner search of `processClusterRole`: scan the discovery mapping
for a group-version whose group equals `apiGroup` and whose resource list
contains an entry with the given group and name; return the first such
entry.  Go skips a matching group whose list lacks the resource
(`lo.Find` fails, `continue`) and keeps scanning. -/
def findAPIResource (gvl : GVL) (apiGroup resource : String) : Option APIResource :=
  match gvl with
  | [] => none
  | (gv, apiresl) :: rest =>
    if gv.group = apiGroup then
      match apiresl.find? (fun a => a.group = apiGroup ∧ a.name = resource) with
      | some a => some a
      | none => findAPIResource rest apiGroup resource
    else
      findAPIResource rest apiGroup resource

/-- One apiGroup iteration of `processClusterRole` for a rule.
`snapshot` is the slice `rule.Resources` held by the Go range loop when
it starts; `cur` is the current value of the mutated `rule.Resources`
field.  Returns the role rules and cluster-role rules emitted by this
iteration, plus the final value of `rule.Resources`. -/
def procResources (orig : PolicyRule) (gvl : GVL) (apiGroup : String) :
    List String → List String → List PolicyRule × List PolicyRule × List String
  | [], cur => ([], [], cur)
  | r :: rs, cur =>
    match findAPIResource gvl apiGroup r with
    | some a =>
      let emitted : PolicyRule := { orig with resources := [r] }
      let rest := procResources orig gvl apiGroup rs [r]
      if a.namespaced then
        (emitted :: rest.1, rest.2.1, rest.2.2)
      else
        (rest.1, emitted :: rest.2.1, rest.2.2)
    | none =>
      -- resource not found in discovery: append the rule as-is (with its
      -- current, possibly already clobbered, Resources field) to the
      -- cluster-role rules.
      let emitted : PolicyRule := { orig with resources := cur }
      let rest := procResources orig gvl apiGroup rs cur
      (rest.1, emitted :: rest.2.1, rest.2.2)

/-- The outer apiGroup loop for one rule: each iteration ranges over the
rule's `Resources` field as left by the previous iteration. -/
def procGroups (orig : PolicyRule) (gvl : GVL) :
    List String → List String → List PolicyRule × List PolicyRule × List String
  | [], cur => ([], [], cur)
  | g :: gs, cur =>
    let this := procResources orig gvl g cur cur
    let rest := procGroups orig gvl gs this.2.2
    (this.1 ++ rest.1, this.2.1 ++ rest.2.1, rest.2.2)

/-- `processClusterRole`: split the rules of the generated ClusterRole
into role rules (namespaced resources) and cluster-role rules
(cluster-scoped or undiscovered resources). -/
def processClusterRole (rules : List PolicyRule) (gvl : GVL) :
    List PolicyRule × List PolicyRule :=
  match rules with
  | [] => ([], [])
  | rule :: rest =>
    let this := procGroups rule gvl rule.apiGroups rule.resources
    let others := processClusterRole rest gvl
    (this.1 ++ others.1, this.2.1 ++ others.2)

/-- The multiset of resources named by a list of policy rules. -/
def rulesResources (rules : List PolicyRule) : List String :=
  rules.flatMap (fun r => r.resources)

/-- The input of the C2 failing case: one rule over apiGroup "" granting
`create` on `configmaps` and `namespaces`, with discovery knowing only
`configmaps` (namespaced). -/
def c2Rule : PolicyRule :=
  { apiGroups := [""], resources := ["configmaps", "namespaces"], verbs := ["create"] }

/-- Discovery mapping for the C2 failing case. -/
def c2GVL : GVL :=
  [(⟨"", "v1"⟩, [⟨"", "configmaps", true⟩])]

/-- Discovery mapping for the C3 failing case: only `configmaps`, marked
cluster-scoped. -/
def c3GVL : GVL :=
  [(⟨"", "v1"⟩, [⟨"", "configmaps", false⟩])]

/-! ### Owned-resource reconciliation (controller_reconciler_utils.go)

The `ensure*` methods list the existing children of a ControlPlane (state
passed in as a list), reduce populations larger than one, and otherwise
create or patch.  Cluster reads and writes are assumed to succeed; the
client state they consume is an explicit argument. -/

/-- `op.Result` (controller/pkg/op). -/
inductive OpResult where
  | noop
  | created
  | updated
  | deleted
deriving DecidableEq, Repr

/-- The write operations a single ensure pass performs against the
cluster, in order. -/
inductive WriteAction where
  | reduce
  | create
  | patch
  | update
  | delete
  | deleteAll
deriving DecidableEq, Repr

/-- The errors returned by the ensure functions modeled here. -/
inductive EnsureErr where
  /-- "number of ... reduced" -/
  | reduced
  /-- `controlplane.GenerateImage` failed (no resolvable image). -/
  | imageInvalid
  /-- "name of Role changed, out of date RoleBinding deleted" -/
  | roleNameChanged
  /-- "name of ClusterRole changed, out of date ClusterRoleBinding deleted" -/
  | clusterRoleNameChanged
  /-- generation of the admission webhook Service failed -/
  | genFailed
deriving DecidableEq, Repr

/-- `numReplicasWhenNoDataPlane` (controller_reconciler_utils.go line 41). -/
def numReplicasWhenNoDataPlane : Int := 0

/-- The subtree of `ControlPlane.Spec` that `ensureDeployment` reads:
the dataplane dependency, the declared replica count, and the rest of the
spec content (pod template and other options) abstracted as one value. -/
structure CPSpec where
  dataPlane : Option String
  replicas : Option Int
  rest : Nat
deriving DecidableEq, Repr

/-- `dataplaneIsSet := params.ControlPlane.Spec.DataPlane != nil &&
*params.ControlPlane.Spec.DataPlane != ""`. -/
def dataplaneIsSet (spec : CPSpec) : Bool :=
  match spec.dataPlane with
  | none => false
  | some s => s ≠ ""

/-- Object metadata of a managed Deployment: labels and the spec-hash
annotation.  The hash is collision-free in the model, so the annotation
stores the hashed spec itself. -/
structure DepMeta where
  labels : Nat
  hashAnn : Option CPSpec
deriving DecidableEq, Repr

/-- A managed `appsv1.Deployment`, restricted to what `ensureDeployment`
reads or writes. -/
structure Deployment where
  meta : DepMeta
  template : Nat
  replicas : Option Int
deriving DecidableEq, Repr

/-- `k8sresources.SpecHashMatchesAnnotation(cp.Spec, existing)`: the stored
annotation equals the hash of the current spec. -/
def specHashMatches (spec : CPSpec) (d : Deployment) : Bool :=
  d.meta.hashAnn = some spec

/-- Modelled from the spec: `k8sresources.GenerateNewDeploymentForControlPlane`
is not under src/; per the spec's Manifest Generator contract it is a pure
map from the parent spec to the desired Deployment, carrying the declared
replica count, the pod template derived from the spec, and the spec-hash
annotation. -/
def genDeployment (spec : CPSpec) : Deployment :=
  { meta := { labels := 0, hashAnn := some spec },
    template := spec.rest,
    replicas := spec.replicas }

/-- Modelled from the spec: `k8sutils.EnsureObjectMetaIsUpdated` is not
under src/; it brings the existing object's metadata up to date with the
generated metadata and reports whether anything changed. -/
def ensureObjectMeta (existing generated : DepMeta) : Bool × DepMeta :=
  (existing ≠ generated, generated)

/-- The arguments of `ensureDeployment` plus the cluster state it reads:
`ensureDeploymentParams` (spec and EnforceConfig), the image validation
outcome, and the owned Deployments returned by the List call. -/
structure EDParams where
  spec : CPSpec
  enforceConfig : Bool
  imageOk : Bool
  deployments : List Deployment
deriving DecidableEq, Repr

/-- The outcome of one `ensureDeployment` pass. -/
structure EDOut where
  res : OpResult
  dep : Option Deployment
  err : Option EnsureErr
  actions : List WriteAction
deriving DecidableEq, Repr

/-- The replica switch of `ensureDeployment` (lines 251-267): with the
dataplane unset and a declared replica count that is nil or nonzero, pin
the existing count to 0; with the dataplane set and a nonzero declared
count, set the declared count; otherwise leave the count alone. -/
def replicaSwitch (spec : CPSpec) (existing : Option Int) : Option Int :=
  if ¬ dataplaneIsSet spec ∧
      (spec.replicas = none ∨ spec.replicas ≠ some numReplicasWhenNoDataPlane) then
    some numReplicasWhenNoDataPlane
  else if dataplaneIsSet spec ∧
      (spec.replicas ≠ none ∧ spec.replicas ≠ some numReplicasWhenNoDataPlane) then
    spec.replicas
  else
    existing

/-- `ensureDeployment` (controller_reconciler_utils.go lines 166-281).
List is given; count > 1 reduces and errors; then the image is validated
and the desired Deployment generated; count = 1 skips the update when
EnforceConfig is unset and the spec hash matches, else patches metadata,
template and replicas; count = 0 creates, pinning replicas to 0 when the
dataplane is unset.  `patch.ApplyPatchIfNotEmpty` (not under src/) is
modelled from the spec: it patches and returns Updated when anything
changed, else returns Noop. -/
def ensureDeployment (p : EDParams) : EDOut :=
  match p.deployments with
  | _ :: _ :: _ => ⟨.noop, none, some .reduced, [.reduce]⟩
  | [existing] =>
    if ¬ p.imageOk then ⟨.noop, none, some .imageInvalid, []⟩ else
    let generated := genDeployment p.spec
    if ¬ p.enforceConfig ∧ specHashMatches p.spec existing then
      ⟨.noop, some existing, none, []⟩
    else
      let metaRes := ensureObjectMeta existing.meta generated.meta
      let tmplChanged := existing.template ≠ generated.template
      let newTemplate := if tmplChanged then generated.template else existing.template
      let newReplicas := replicaSwitch p.spec existing.replicas
      let final : Deployment :=
        { meta := metaRes.2, template := newTemplate, replicas := newReplicas }
      let updated := metaRes.1 ∨ tmplChanged ∨ newReplicas ≠ existing.replicas
      if updated then ⟨.updated, some final, none, [.patch]⟩
      else ⟨.noop, some final, none, []⟩
  | [] =>
    if ¬ p.imageOk then ⟨.noop, none, some .imageInvalid, []⟩ else
    let generated := genDeployment p.spec
    let toCreate :=
      if ¬ dataplaneIsSet p.spec then
        { generated with replicas := some numReplicasWhenNoDataPlane }
      else generated
    ⟨.created, some toCreate, none, [.create]⟩

/-- Modelled from the spec: `k8sutils.EnsureObjectMetaIsUpdated` for the
children whose metadata we abstract as one value. -/
def ensureMetaNat (existing generated : Nat) : Bool × Nat :=
  (existing ≠ generated, generated)

/-- A managed `corev1.ServiceAccount`, metadata abstracted. -/
structure ServiceAccount where
  meta : Nat
deriving DecidableEq, Repr

/-- Modelled from the spec: the metadata of the ServiceAccount produced by
`k8sresources.GenerateNewServiceAccountForControlPlane` (not under src/). -/
def genServiceAccountMeta : Nat := 0

/-- Outcome of `ensureServiceAccount`. -/
structure SAOut where
  createdOrModified : Bool
  sa : Option ServiceAccount
  err : Option EnsureErr
  actions : List WriteAction
deriving DecidableEq, Repr

/-- `ensureServiceAccount` (lines 283-325): more than one owned
ServiceAccount is reduced with an error; one is metadata-updated or left
alone; none is created. -/
def ensureServiceAccount (serviceAccounts : List ServiceAccount) : SAOut :=
  match serviceAccounts with
  | _ :: _ :: _ => ⟨false, none, some .reduced, [.reduce]⟩
  | [existing] =>
    let m := ensureMetaNat existing.meta genServiceAccountMeta
    if m.1 then ⟨true, some ⟨m.2⟩, none, [.update]⟩
    else ⟨false, some existing, none, []⟩
  | [] => ⟨true, some ⟨genServiceAccountMeta⟩, none, [.create]⟩

/-- A managed `rbacv1.ClusterRole`, restricted to what `ensureClusterRole`
compares: metadata, rules and the aggregation rule. -/
structure ClusterRole where
  meta : Nat
  rules : List PolicyRule
  aggregationRule : Nat
deriving DecidableEq, Repr

/-- Outcome of `ensureClusterRole`. -/
structure CROut where
  createdOrUpdated : Bool
  cr : Option ClusterRole
  err : Option EnsureErr
  actions : List WriteAction
deriving DecidableEq, Repr

/-- `ensureClusterRole` (lines 655-699). -/
def ensureClusterRole (clusterRoles : List ClusterRole) (generated : ClusterRole) : CROut :=
  match clusterRoles with
  | _ :: _ :: _ => ⟨false, none, some .reduced, [.reduce]⟩
  | [existing] =>
    let m := ensureMetaNat existing.meta generated.meta
    if m.1 ∨ existing.rules ≠ generated.rules ∨
        existing.aggregationRule ≠ generated.aggregationRule then
      ⟨true, some { meta := m.2, rules := generated.rules,
                    aggregationRule := generated.aggregationRule }, none, [.patch]⟩
    else ⟨false, some existing, none, []⟩
  | [] => ⟨true, some generated, none, [.create]⟩

/-- A managed `rbacv1.RoleBinding`: metadata, the name its RoleRef points
to, and whether its subjects contain the ControlPlane's ServiceAccount. -/
structure RoleBinding where
  meta : Nat
  roleName : String
  containsServiceAccount : Bool
deriving DecidableEq, Repr

/-- Outcome of `ensureRoleBinding`. -/
structure RBOut where
  res : OpResult
  rb : Option RoleBinding
  err : Option EnsureErr
  actions : List WriteAction
deriving DecidableEq, Repr

/-- Modelled from the spec: the RoleBinding produced by
`k8sresources.GenerateNewRoleBindingForControlPlane` (not under src/). -/
def genRoleBinding (roleName : String) : RoleBinding :=
  ⟨0, roleName, true⟩

/-- `ensureRoleBinding` (lines 555-621): reduce when more than one; when
the referenced Role's name changed, delete the binding and error (RoleRef
is immutable); otherwise patch metadata/subjects or no-op; create when
none. -/
def ensureRoleBinding (roleBindings : List RoleBinding) (roleName : String) : RBOut :=
  match roleBindings with
  | _ :: _ :: _ => ⟨.noop, none, some .reduced, [.reduce]⟩
  | [existing] =>
    if existing.roleName ≠ roleName then
      ⟨.noop, none, some .roleNameChanged, [.delete]⟩
    else
      let m := ensureMetaNat existing.meta (genRoleBinding roleName).meta
      let updatedServiceAccount := ¬ existing.containsServiceAccount
      if m.1 ∨ updatedServiceAccount then
        ⟨.updated, some ⟨m.2, existing.roleName, true⟩, none, [.patch]⟩
      else ⟨.noop, some existing, none, []⟩
  | [] => ⟨.created, some (genRoleBinding roleName), none, [.create]⟩

/-- A managed `rbacv1.ClusterRoleBinding`. -/
structure ClusterRoleBinding where
  meta : Nat
  clusterRoleName : String
  containsServiceAccount : Bool
deriving DecidableEq, Repr

/-- Outcome of `ensureClusterRoleBinding`. -/
structure CRBOut where
  createdOrUpdate : Bool
  crb : Option ClusterRoleBinding
  err : Option EnsureErr
  actions : List WriteAction
deriving DecidableEq, Repr

/-- Modelled from the spec: the ClusterRoleBinding produced by
`k8sresources.GenerateNewClusterRoleBindingForControlPlane` (not under src/). -/
def genClusterRoleBinding (clusterRoleName : String) : ClusterRoleBinding :=
  ⟨0, clusterRoleName, true⟩

/-- `ensureClusterRoleBinding` (lines 772-837). -/
def ensureClusterRoleBinding (clusterRoleBindings : List ClusterRoleBinding)
    (clusterRoleName : String) : CRBOut :=
  match clusterRoleBindings with
  | _ :: _ :: _ => ⟨false, none, some .reduced, [.reduce]⟩
  | [existing] =>
    if existing.clusterRoleName ≠ clusterRoleName then
      ⟨false, none, some .clusterRoleNameChanged, [.delete]⟩
    else
      let m := ensureMetaNat existing.meta (genClusterRoleBinding clusterRoleName).meta
      let updatedServiceAccount := ¬ existing.containsServiceAccount
      if m.1 ∨ updatedServiceAccount then
        ⟨true, some ⟨m.2, existing.clusterRoleName, true⟩, none, [.patch]⟩
      else ⟨false, some existing, none, []⟩
  | [] => ⟨true, some (genClusterRoleBinding clusterRoleName), none, [.create]⟩

/-- A managed admission webhook `corev1.Service`: metadata, selector and
ports. -/
structure WebhookService where
  meta : Nat
  selector : Nat
  ports : Nat
deriving DecidableEq, Repr

/-- Modelled from the spec: the Service produced by
`k8sresources.GenerateNewAdmissionWebhookServiceForControlPlane`
(not under src/). -/
def genWebhookService : WebhookService := ⟨0, 0, 0⟩

/-- Outcome of `ensureAdmissionWebhookService`. -/
structure WSOut where
  res : OpResult
  svc : Option WebhookService
  err : Option EnsureErr
  actions : List WriteAction
deriving DecidableEq, Repr

/-- `ensureAdmissionWebhookService` (lines 1011-1082): with the admission
webhook disabled, delete every matching Service (Deleted) or no-op when
none exist; with it enabled, reduce when more than one, then generate and
create/update/no-op.  `isAdmissionWebhookEnabled` (not under src/) is the
`webhookEnabled` input; `genOk` is whether generation succeeds. -/
def ensureAdmissionWebhookService (webhookEnabled : Bool) (genOk : Bool)
    (services : List WebhookService) : WSOut :=
  if ¬ webhookEnabled then
    match services with
    | [] => ⟨.noop, none, none, []⟩
    | _ => ⟨.deleted, none, none, [.deleteAll]⟩
  else
    match services with
    | _ :: _ :: _ => ⟨.noop, none, some .reduced, [.reduce]⟩
    | [existing] =>
      if ¬ genOk then ⟨.noop, none, some .genFailed, []⟩ else
      let m := ensureMetaNat existing.meta genWebhookService.meta
      let selectorChanged := existing.selector ≠ genWebhookService.selector
      let portsChanged := existing.ports ≠ genWebhookService.ports
      if m.1 ∨ selectorChanged ∨ portsChanged then
        ⟨.updated, some { genWebhookService with meta := m.2 }, none, [.update]⟩
      else ⟨.noop, some existing, none, []⟩
    | [] =>
      if ¬ genOk then ⟨.noop, none, some .genFailed, []⟩ else
      ⟨.created, some genWebhookService, none, [.create]⟩

/-! ### Watch-namespace grant validation (controller_reconciler_utils.go) -/

/-- `operatorv1alpha1.WatchNamespaceGrantFrom`.  The Go field `Namespace`
is rendered `ns` (`namespace` is a Lean keyword). -/
structure WatchNamespaceGrantFrom where
  group : String
  kind : String
  ns : String
deriving DecidableEq, Repr

/-- A `WatchNamespaceGrant`: its `Spec.From` entries. -/
structure WatchNamespaceGrant where
  fromEntries : List WatchNamespaceGrantFrom
deriving DecidableEq, Repr

/-- `operatorv1beta1.SchemeGroupVersion.Group`. -/
def schemeGroup : String := "gateway-operator.konghq.com"

/-- The errors of `validateWatchNamespaceGrants`. -/
inductive WatchErr where
  /-- "spec.watchNamespaces cannot be empty" -/
  | specEmpty
  /-- "WatchNamespaceGrant in Namespace (ns) to ControlPlane in Namespace
  (cpNs) not found" -/
  | grantMissing (ns cpNs : String)
  /-- "unexpected watchNamespaces.type" -/
  | unexpectedType (t : String)
deriving DecidableEq, Repr

/-- `operatorv1beta1.WatchNamespaces`: the watch mode (a string type with
values "All", "Own", "List") and the namespace list. -/
structure WatchNamespaces where
  type : String
  list : List String
deriving DecidableEq, Repr

/-- A ControlPlane as read by `validateWatchNamespaceGrants`: its
namespace and its `spec.watchNamespaces`. -/
structure CPForGrants where
  ns : String
  watchNamespaces : Option WatchNamespaces
deriving DecidableEq, Repr

/-- The WatchNamespaceGrants present in the cluster, per namespace
(association list; the List call is assumed to succeed). -/
def GrantsByNamespace := List (String × List WatchNamespaceGrant)

/-- The grants the List call returns for one namespace. -/
def grantsIn (cluster : GrantsByNamespace) (ns : String) : List WatchNamespaceGrant :=
  match List.find? (fun p => p.1 = ns) cluster with
  | some p => p.2
  | none => []

/-- The `lo.ContainsBy` predicate of `ensureWatchNamespaceGrantsForNamespace`:
some `from` entry of the grant names the operator group, kind
"ControlPlane" and the ControlPlane's namespace. -/
def grantMatches (cp : CPForGrants) (g : WatchNamespaceGrant) : Bool :=
  g.fromEntries.any (fun f =>
    f.group = schemeGroup ∧ f.kind = "ControlPlane" ∧ f.ns = cp.ns)

/-- `ensureWatchNamespaceGrantsForNamespace` (lines 1232-1254): succeed
iff some grant in `ns` has a `from` entry matching the operator group,
kind "ControlPlane" and the ControlPlane's namespace. -/
def ensureWatchNamespaceGrantsForNamespace (cluster : GrantsByNamespace)
    (cp : CPForGrants) (ns : String) : Option WatchErr :=
  if (grantsIn cluster ns).any (fun g => grantMatches cp g) then
    none
  else
    some (.grantMissing ns cp.ns)

/-- The List-mode loop of `validateWatchNamespaceGrants` (lines
1208-1221): validate each listed namespace in order, stopping at the
first missing grant (Go returns the partially accumulated list with the
error); on success append the ControlPlane's own namespace. -/
def validateListLoop (cluster : GrantsByNamespace) (cp : CPForGrants) :
    List String → List String × Option WatchErr
  | [] => ([cp.ns], none)
  | ns :: rest =>
    match ensureWatchNamespaceGrantsForNamespace cluster cp ns with
    | some e => ([], some e)
    | none =>
      let r := validateListLoop cluster cp rest
      (ns :: r.1, r.2)

/-- `validateWatchNamespaceGrants` (lines 1191-1225). -/
def validateWatchNamespaceGrants (cluster : GrantsByNamespace) (cp : CPForGrants) :
    List String × Option WatchErr :=
  match cp.watchNamespaces with
  | none => ([], some .specEmpty)
  | some wn =>
    if wn.type = "All" then ([], none)
    else if wn.type = "Own" then ([cp.ns], none)
    else if wn.type = "List" then validateListLoop cluster cp wn.list
    else ([], some (.unexpectedType wn.type))

/-! ### KonnectExtension status utilities (konnectextension_controller_utils.go) -/

/-- `metav1.ConditionStatus`. -/
inductive CondStatus where
  | condTrue
  | condFalse
  | condUnknown
deriving DecidableEq, Repr

/-- `metav1.Condition`, restricted to type, status and reason. -/
structure Condition where
  type : String
  status : CondStatus
  reason : String
deriving DecidableEq, Repr

/-- Upsert of a condition by type (`k8sutils.SetCondition` shape, used by
the modeled status patch). -/
def setCondition (c : Condition) : List Condition → List Condition
  | [] => [c]
  | x :: xs => if x.type = c.type then c :: xs else x :: setCondition c xs

/-- `k8sutils.HasConditionTrue`. -/
def hasConditionTrue (t : String) (conds : List Condition) : Bool :=
  conds.any (fun c => c.type = t ∧ c.status = .condTrue)

/-- `commonv1alpha1.NamespacedRef` with the namespace filled in. -/
structure NamespacedRef where
  name : String
  ns : String
deriving DecidableEq, Repr

/-- The sort key `fmt.Sprintf("%s/%s", *ref.Namespace, ref.Name)`. -/
def refKey (r : NamespacedRef) : String := r.ns ++ "/" ++ r.name

/-- The `sort.Slice` call of `ensureExtendablesReferencesInStatus`,
realized as insertion sort by the key order: a permutation of its input
sorted ascending by `refKey`. -/
def sortRefs (refs : List NamespacedRef) : List NamespacedRef :=
  List.insertionSort (fun a b => refKey a ≤ refKey b) refs

instance : IsTotal NamespacedRef (fun a b => refKey a ≤ refKey b) :=
  ⟨fun a b => le_total (refKey a) (refKey b)⟩

instance : IsTrans NamespacedRef (fun a b => refKey a ≤ refKey b) :=
  ⟨fun _ _ _ h1 h2 => le_trans h1 h2⟩

/-- `konnect.KonnectExtensionAppliedType`. -/
def konnectExtensionAppliedType : String := "KonnectExtensionApplied"

/-- A candidate dependent (an item of the DataPlane or ControlPlane
list): identity plus status conditions. -/
structure Dependent where
  name : String
  ns : String
  conditions : List Condition
deriving DecidableEq, Repr

/-- `hasExtensionAppliedCondition` from
`ensureExtendablesReferencesInStatus`. -/
def hasExtensionAppliedCondition (conds : List Condition) : Bool :=
  conds.any (fun c => c.type = konnectExtensionAppliedType ∧ c.status = .condTrue)

/-- The recomputed reference list: keep dependents whose applied
condition is True, map to refs, sort by namespace/name. -/
def computeRefs (items : List Dependent) : List NamespacedRef :=
  sortRefs ((items.filter (fun d => hasExtensionAppliedCondition d.conditions)).map
    (fun d => ⟨d.name, d.ns⟩))

/-- The KonnectExtension status: the two reference lists plus the rest of
the status (untouched by this function) abstracted as one value. -/
structure ExtStatus where
  dataPlaneRefs : List NamespacedRef
  controlPlaneRefs : List NamespacedRef
  rest : Nat
deriving DecidableEq, Repr

/-- The outcome of the `r.Client.Status().Update` call. -/
inductive WriteOutcome where
  | ok
  | conflict
  | otherErr (msg : String)
deriving DecidableEq, Repr

/-- Outcome of `ensureExtendablesReferencesInStatus`: the final status,
the `ctrl.Result.Requeue` flag, the returned error, and whether a status
write was attempted. -/
structure EnsureRefsOut where
  status : ExtStatus
  requeue : Bool
  err : Option String
  wrote : Bool
deriving DecidableEq, Repr

/-- `ensureExtendablesReferencesInStatus` (lines 141-207): recompute both
reference lists; skip the write when the status is unchanged; on a write
conflict requeue without error; on another write failure return the
wrapped error; on success requeue. -/
def ensureExtendablesReferencesInStatus (st : ExtStatus) (dps cps : List Dependent)
    (write : WriteOutcome) : EnsureRefsOut :=
  let newSt : ExtStatus :=
    { st with dataPlaneRefs := computeRefs dps, controlPlaneRefs := computeRefs cps }
  if newSt = st then ⟨newSt, false, none, false⟩
  else
    match write with
    | .ok => ⟨newSt, true, none, true⟩
    | .conflict => ⟨newSt, true, none, true⟩
    | .otherErr m =>
      ⟨newSt, false,
       some ("failed to update KonnectExtension ControlPlane and DataPlane references in status: " ++ m),
       true⟩

/-- A `KonnectGatewayControlPlane` as read from the cluster. -/
structure KGCP where
  name : String
  ns : String
  konnectID : String
  conditions : List Condition
deriving DecidableEq, Repr

/-- `ext.Spec.Konnect.ControlPlane.Ref`: the two supported addressing
modes. -/
inductive CPRef where
  | konnectNamespacedRef (name : String)
  | konnectID (id : String)
deriving DecidableEq, Repr

/-- A KonnectExtension as read by `getGatewayKonnectControlPlane`. -/
structure KonnectExt where
  ns : String
  cpRef : CPRef
  conditions : List Condition
deriving DecidableEq, Repr

/-- The two failure modes of `getGatewayKonnectControlPlane`: the k8s
NotFound error and the distinguished
`extensionserrors.ErrKonnectGatewayControlPlaneNotProgrammed`. -/
inductive KonnectErr where
  | notFound (desc : String)
  | notProgrammed
deriving DecidableEq, Repr

/-- `konnectv1alpha1.KonnectEntityProgrammedConditionType`. -/
def programmedConditionType : String := "Programmed"

/-- `konnectv1alpha1.ControlPlaneRefValidConditionType`. -/
def controlPlaneRefValidType : String := "ControlPlaneRefValid"

/-- `konnectv1alpha1.ControlPlaneRefReasonValid`. -/
def reasonValid : String := "Valid"

/-- `konnectv1alpha1.ControlPlaneRefReasonInvalid`. -/
def reasonInvalid : String := "Invalid"

/-- Outcome of `getGatewayKonnectControlPlane`: the control plane
returned, the extension with its patched conditions, and the error. -/
structure GetCPOut where
  cp : Option KGCP
  ext : KonnectExt
  err : Option KonnectErr
deriving DecidableEq, Repr

/-- The resolution step of `getGatewayKonnectControlPlane` (lines
49-85): a namespaced ref is a Get by name in the extension's namespace;
a KonnectID ref is a List filtered by the KonnectID index, taking the
first item when non-empty. -/
def resolveControlPlaneRef (cluster : List KGCP) (ext : KonnectExt) : Option KGCP :=
  match ext.cpRef with
  | .konnectNamespacedRef n => cluster.find? (fun c => c.name = n ∧ c.ns = ext.ns)
  | .konnectID id =>
    match cluster.filter (fun c => c.konnectID = id ∧ c.ns = ext.ns) with
    | [] => none
    | c :: _ => some c

/-- `getGatewayKonnectControlPlane` (lines 42-137).  A resolution miss
sets `ControlPlaneRefValid` False/Invalid and returns the NotFound error;
a found-but-unprogrammed control plane sets the same condition and
returns the distinguished not-programmed error; otherwise the condition
is set True/Valid and the control plane returned.
`patch.StatusWithConditions` is not under src/; modelled from the spec:
it upserts the given conditions on the extension's status, and the write
is assumed to succeed with an empty result. -/
def getGatewayKonnectControlPlane (cluster : List KGCP) (ext : KonnectExt) : GetCPOut :=
  match resolveControlPlaneRef cluster ext with
  | none =>
    let cond : Condition := ⟨controlPlaneRefValidType, .condFalse, reasonInvalid⟩
    ⟨none, { ext with conditions := setCondition cond ext.conditions },
     some (.notFound "KonnectGatewayControlPlane")⟩
  | some cp =>
    if ¬ hasConditionTrue programmedConditionType cp.conditions then
      let cond : Condition := ⟨controlPlaneRefValidType, .condFalse, reasonInvalid⟩
      ⟨none, { ext with conditions := setCondition cond ext.conditions },
       some .notProgrammed⟩
    else
      let cond : Condition := ⟨controlPlaneRefValidType, .condTrue, reasonValid⟩
      ⟨some cp, { ext with conditions := setCondition cond ext.conditions }, none⟩

/-! ## Theorems -/

/-- C2: evaluation of `processClusterRole` at the failing input.  After
`configmaps` is found and the Go code overwrites `rule.Resources` with
`["configmaps"]`, the not-found resource `namespaces` emits a cluster rule
whose resource list is `["configmaps"]`: the resource `namespaces` appears
in the input rules but in neither output rule set, so the union of the
output resources is not the input resource set and the emitted rule for the
pair ("", namespaces) is not restricted to that resource. -/
theorem C2_processClusterRole_dropped_resource :
    processClusterRole [c2Rule] c2GVL =
      ([{ apiGroups := [""], resources := ["configmaps"], verbs := ["create"] }],
       [{ apiGroups := [""], resources := ["configmaps"], verbs := ["create"] }]) ∧
    "namespaces" ∈ rulesResources [c2Rule] ∧
    "namespaces" ∉ rulesResources (processClusterRole [c2Rule] c2GVL).1 ∧
    "namespaces" ∉ rulesResources (processClusterRole [c2Rule] c2GVL).2 := by
  decide

/-- C3: evaluation at the failing input.  The pair ("", namespaces) is
absent from discovery, yet no rule naming `namespaces` is placed in the
cluster-role output set (the rule appended for it carries the clobbered
resource list `["configmaps"]`): the undiscovered resource is dropped
rather than landing in the cluster-role set. -/
theorem C3_processClusterRole_not_found_clobbered :
    findAPIResource c3GVL "" "namespaces" = none ∧
    processClusterRole [c2Rule] c3GVL =
      ([],
       [{ apiGroups := [""], resources := ["configmaps"], verbs := ["create"] },
        { apiGroups := [""], resources := ["configmaps"], verbs := ["create"] }]) ∧
    "namespaces" ∉ rulesResources (processClusterRole [c2Rule] c3GVL).2 := by
  decide

theorem sanitizeCert_no_cr (s : List Char) : '\r' ∉ sanitizeCert s := by
  intro h
  have := List.of_mem_filter h
  simp at this

theorem sanitizeCert_id_of_clean (s : List Char)
    (hcr : '\r' ∉ s) (hnl : s.getLast? ≠ some '\n') : sanitizeCert s = s := by
  unfold sanitizeCert trimSuffixNewline removeCarriageReturns
  rw [if_neg hnl]
  apply List.filter_eq_self.mpr
  intro c hc
  simp only [ne_eq, decide_eq_true_eq]
  intro hceq
  exact hcr (hceq ▸ hc)

/-- C10 counterexample: on the input "a\n\n", `sanitizeCert` removes only one
of the two trailing newlines, so the result "a\n" still ends with a newline,
contradicting the claim that the result never ends with a newline. -/
theorem C10_sanitizeCert_counterexample :
    sanitizeCert ['a', '\n', '\n'] = ['a', '\n'] ∧
    (sanitizeCert ['a', '\n', '\n']).getLast? = some '\n' := by
  decide

/-- C10 (amended): `sanitizeCert` removes at most one trailing newline and
then strips every carriage return; the result contains no carriage return
(but may still end with a newline when the input ends with two), and an
input free of carriage returns and not ending with a newline is returned
unchanged. -/
theorem C10_sanitizeCert_amended (s : List Char) :
    ('\r' ∉ sanitizeCert s) ∧
    ('\r' ∉ s → s.getLast? ≠ some '\n' → sanitizeCert s = s) :=
  ⟨sanitizeCert_no_cr s, fun hcr hnl => sanitizeCert_id_of_clean s hcr hnl⟩

/-- C10 witness: the amended theorem evaluated on the concrete clean
input "ab". -/
theorem C10_sanitizeCert_witness :
    ('\r' ∉ sanitizeCert ['a', 'b']) ∧ sanitizeCert ['a', 'b'] = ['a', 'b'] :=
  ⟨(C10_sanitizeCert_amended ['a', 'b']).1,
   (C10_sanitizeCert_amended ['a', 'b']).2 (by decide) (by decide)⟩


theorem replicaSwitch_unset (spec : CPSpec) (r : Option Int)
    (hdp : dataplaneIsSet spec = false) (hrep : spec.replicas ≠ some 0) :
    replicaSwitch spec r = some 0 := by
  unfold replicaSwitch numReplicasWhenNoDataPlane
  rw [if_pos]
  exact ⟨by simp [hdp], Or.inr (by simpa using hrep)⟩

theorem replicaSwitch_set (spec : CPSpec) (r : Option Int) (n : Int)
    (hdp : dataplaneIsSet spec = true) (hrep : spec.replicas = some n) (hn : n ≠ 0) :
    replicaSwitch spec r = some n := by
  unfold replicaSwitch numReplicasWhenNoDataPlane
  rw [if_neg, if_pos]
  · exact hrep
  · exact ⟨by simp [hdp], by simp [hrep], by simp [hrep, hn]⟩
  · rintro ⟨h1, _⟩
    simp [hdp] at h1

theorem ensureDeployment_single_replicas (spec : CPSpec) (ec : Bool) (d : Deployment)
    (hforce : ec = true ∨ specHashMatches spec d = false) :
    ∃ d2, (ensureDeployment ⟨spec, ec, true, [d]⟩).dep = some d2 ∧
      d2.replicas = replicaSwitch spec d.replicas := by
  have hcond : ¬ ((¬ ec) ∧ specHashMatches spec d) := by
    rcases hforce with h | h
    · simp [h]
    · simp [h]
  unfold ensureDeployment
  simp only [Bool.not_true, if_false]
  rw [if_neg (by simp), if_neg hcond]
  split
  · exact ⟨_, rfl, rfl⟩
  · exact ⟨_, rfl, rfl⟩

/-- C1 counterexample: with the dataplane dependency unset, a declared
replica intent of 5, EnforceConfig false, and one existing Deployment
whose spec-hash annotation matches the spec, `ensureDeployment` returns
Noop leaving the Deployment at 5 replicas: the replica evaluation is
skipped when the fingerprint matches, and the count is not pinned to 0. -/
theorem C1_ensureDeployment_counterexample :
    dataplaneIsSet { dataPlane := none, replicas := some 5, rest := 0 } = false ∧
    specHashMatches { dataPlane := none, replicas := some 5, rest := 0 }
      { meta := { labels := 0, hashAnn := some { dataPlane := none, replicas := some 5, rest := 0 } },
        template := 0, replicas := some 5 } = true ∧
    ensureDeployment
      { spec := { dataPlane := none, replicas := some 5, rest := 0 },
        enforceConfig := false, imageOk := true,
        deployments := [{ meta := { labels := 0, hashAnn := some { dataPlane := none, replicas := some 5, rest := 0 } },
                          template := 0, replicas := some 5 }] } =
      ⟨.noop,
       some { meta := { labels := 0, hashAnn := some { dataPlane := none, replicas := some 5, rest := 0 } },
              template := 0, replicas := some 5 },
       none, []⟩ := by
  decide

/-- C1 (amended): when EnforceConfig is false and the stored spec-hash
annotation matches the spec, `ensureDeployment` returns Noop without
evaluating replicas, leaving the existing Deployment untouched.  When
EnforceConfig is set or the hash does not match: an unset dataplane
dependency pins the replica count to 0 whenever the declared count is nil
or nonzero, and a set dependency with a nonzero declared count sets the
declared count.  On creation an unset dependency forces 0 replicas. -/
theorem C1_ensureDeployment_amended (p : EDParams) (himg : p.imageOk = true) :
    (∀ d, p.deployments = [d] →
      ((p.enforceConfig = false ∧ specHashMatches p.spec d = true) →
          ensureDeployment p = ⟨.noop, some d, none, []⟩) ∧
      ((p.enforceConfig = true ∨ specHashMatches p.spec d = false) →
        (dataplaneIsSet p.spec = false → p.spec.replicas ≠ some 0 →
          ∃ d2, (ensureDeployment p).dep = some d2 ∧ d2.replicas = some 0) ∧
        (∀ n : Int, dataplaneIsSet p.spec = true → p.spec.replicas = some n → n ≠ 0 →
          ∃ d2, (ensureDeployment p).dep = some d2 ∧ d2.replicas = some n))) ∧
    (p.deployments = [] → dataplaneIsSet p.spec = false →
      (ensureDeployment p).res = .created ∧
      ∃ d2, (ensureDeployment p).dep = some d2 ∧ d2.replicas = some 0) := by
  obtain ⟨spec, ec, io, ds⟩ := p
  simp only at himg
  subst himg
  constructor
  · rintro d rfl
    constructor
    · rintro ⟨hec, hmatch⟩
      subst hec
      unfold ensureDeployment
      dsimp only
      rw [if_neg (by simp), if_pos (by simpa using hmatch)]
    · intro hforce
      constructor
      · intro hdp hrep
        obtain ⟨d2, hd2, hrepl⟩ := ensureDeployment_single_replicas spec ec d hforce
        exact ⟨d2, hd2, hrepl.trans (replicaSwitch_unset spec d.replicas hdp hrep)⟩
      · intro n hdp hrepn hn
        obtain ⟨d2, hd2, hrepl⟩ := ensureDeployment_single_replicas spec ec d hforce
        exact ⟨d2, hd2, hrepl.trans (replicaSwitch_set spec d.replicas n hdp hrepn hn)⟩
  · rintro rfl hdp
    unfold ensureDeployment
    dsimp only
    rw [if_neg (by simp), if_pos (by simpa using hdp)]
    exact ⟨rfl, _, rfl, rfl⟩

/-- C1 witness: the amended theorem applied to a concrete pass with
EnforceConfig set, the dataplane unset and one existing Deployment at 7
replicas: the resulting Deployment has 0 replicas. -/
theorem C1_ensureDeployment_witness :
    ∃ d2, (ensureDeployment
      { spec := { dataPlane := none, replicas := some 3, rest := 0 },
        enforceConfig := true, imageOk := true,
        deployments := [{ meta := { labels := 1, hashAnn := none },
                          template := 5, replicas := some 7 }] }).dep =
      some d2 ∧ d2.replicas = some 0 :=
  (((C1_ensureDeployment_amended _ rfl).1 _ rfl).2 (Or.inl rfl)).1 rfl (by decide)

/-- C4 counterexample: with the admission webhook disabled and two owned
webhook Services present, the pass deletes them all and returns Deleted
with no error — no reduce operation and no non-terminal error, contrary
to the claim's universal statement over webhook Services. -/
theorem C4_reduce_counterexample :
    ensureAdmissionWebhookService false true [⟨0, 0, 0⟩, ⟨1, 1, 1⟩] =
      ⟨.deleted, none, none, [.deleteAll]⟩ ∧
    WriteAction.reduce ∉ (ensureAdmissionWebhookService false true [⟨0, 0, 0⟩, ⟨1, 1, 1⟩]).actions ∧
    (ensureAdmissionWebhookService false true [⟨0, 0, 0⟩, ⟨1, 1, 1⟩]).err = none := by
  decide

/-- C4 (amended): for Deployments, ServiceAccounts, ClusterRoles,
RoleBindings and ClusterRoleBindings, a population of more than one owned
child makes the pass invoke only the reduce operation and return the
non-terminal "reduced" error with a Noop (or false) result, creating and
patching nothing; the same holds for admission webhook Services when the
webhook is enabled, while with it disabled any existing webhook Services
are all deleted and the pass returns Deleted with no error. -/
theorem C4_reduce_amended :
    (∀ p : EDParams, 2 ≤ p.deployments.length →
       ensureDeployment p = ⟨.noop, none, some .reduced, [.reduce]⟩) ∧
    (∀ serviceAccounts : List ServiceAccount, 2 ≤ serviceAccounts.length →
       ensureServiceAccount serviceAccounts = ⟨false, none, some .reduced, [.reduce]⟩) ∧
    (∀ (clusterRoles : List ClusterRole) (generated : ClusterRole), 2 ≤ clusterRoles.length →
       ensureClusterRole clusterRoles generated = ⟨false, none, some .reduced, [.reduce]⟩) ∧
    (∀ (roleBindings : List RoleBinding) (roleName : String), 2 ≤ roleBindings.length →
       ensureRoleBinding roleBindings roleName = ⟨.noop, none, some .reduced, [.reduce]⟩) ∧
    (∀ (clusterRoleBindings : List ClusterRoleBinding) (clusterRoleName : String),
       2 ≤ clusterRoleBindings.length →
       ensureClusterRoleBinding clusterRoleBindings clusterRoleName =
         ⟨false, none, some .reduced, [.reduce]⟩) ∧
    (∀ (genOk : Bool) (services : List WebhookService), 2 ≤ services.length →
       ensureAdmissionWebhookService true genOk services = ⟨.noop, none, some .reduced, [.reduce]⟩) ∧
    (∀ (genOk : Bool) (services : List WebhookService), services ≠ [] →
       ensureAdmissionWebhookService false genOk services = ⟨.deleted, none, none, [.deleteAll]⟩) := by
  refine ⟨?_, ?_, ?_, ?_, ?_, ?_, ?_⟩
  · rintro ⟨spec, ec, io, ds⟩ h
    rcases ds with _ | ⟨a, _ | ⟨b, t⟩⟩
    · simp at h
    · simp at h
    · rfl
  · intro l h
    rcases l with _ | ⟨a, _ | ⟨b, t⟩⟩
    · simp at h
    · simp at h
    · rfl
  · intro l g h
    rcases l with _ | ⟨a, _ | ⟨b, t⟩⟩
    · simp at h
    · simp at h
    · rfl
  · intro l n h
    rcases l with _ | ⟨a, _ | ⟨b, t⟩⟩
    · simp at h
    · simp at h
    · rfl
  · intro l n h
    rcases l with _ | ⟨a, _ | ⟨b, t⟩⟩
    · simp at h
    · simp at h
    · rfl
  · intro g l h
    rcases l with _ | ⟨a, _ | ⟨b, t⟩⟩
    · simp at h
    · simp at h
    · rfl
  · intro g l h
    rcases l with _ | ⟨a, t⟩
    · exact absurd rfl h
    · rfl

/-- C4 witness: the amended theorem applied to concrete two-element
populations of each kind (and a concrete singleton for the
disabled-webhook clause). -/
theorem C4_reduce_witness :
    ensureDeployment { spec := { dataPlane := none, replicas := none, rest := 0 },
                       enforceConfig := false, imageOk := true,
                       deployments := [⟨⟨0, none⟩, 0, none⟩, ⟨⟨1, none⟩, 1, none⟩] } =
      ⟨.noop, none, some .reduced, [.reduce]⟩ ∧
    ensureServiceAccount [⟨0⟩, ⟨1⟩] = ⟨false, none, some .reduced, [.reduce]⟩ ∧
    ensureClusterRole [⟨0, [], 0⟩, ⟨1, [], 0⟩] ⟨0, [], 0⟩ = ⟨false, none, some .reduced, [.reduce]⟩ ∧
    ensureRoleBinding [⟨0, "r", true⟩, ⟨1, "r", true⟩] "r" = ⟨.noop, none, some .reduced, [.reduce]⟩ ∧
    ensureClusterRoleBinding [⟨0, "c", true⟩, ⟨1, "c", true⟩] "c" =
      ⟨false, none, some .reduced, [.reduce]⟩ ∧
    ensureAdmissionWebhookService true true [⟨0, 0, 0⟩, ⟨1, 1, 1⟩] =
      ⟨.noop, none, some .reduced, [.reduce]⟩ ∧
    ensureAdmissionWebhookService false true [⟨2, 2, 2⟩] = ⟨.deleted, none, none, [.deleteAll]⟩ :=
  ⟨C4_reduce_amended.1 _ (by decide),
   C4_reduce_amended.2.1 _ (by decide),
   C4_reduce_amended.2.2.1 _ _ (by decide),
   C4_reduce_amended.2.2.2.1 _ _ (by decide),
   C4_reduce_amended.2.2.2.2.1 _ _ (by decide),
   C4_reduce_amended.2.2.2.2.2.1 _ _ (by decide),
   C4_reduce_amended.2.2.2.2.2.2 _ _ (by decide)⟩

/-- When every listed namespace has a matching grant, the List-mode loop
returns the listed namespaces followed by the ControlPlane's own
namespace, with no error. -/
theorem validateListLoop_all_granted (cluster : GrantsByNamespace) (cp : CPForGrants)
    (l : List String)
    (h : ∀ ns ∈ l, ensureWatchNamespaceGrantsForNamespace cluster cp ns = none) :
    validateListLoop cluster cp l = (l ++ [cp.ns], none) := by
  induction l with
  | nil => rfl
  | cons ns rest ih =>
    have hns := h ns (by simp)
    have hrest := ih (fun x hx => h x (by simp [hx]))
    simp [validateListLoop, hns, hrest]

/-- A failing grant check returns precisely the grant-missing error
naming the checked namespace and the ControlPlane's namespace. -/
theorem ensureGrants_ne_none (cluster : GrantsByNamespace) (cp : CPForGrants) (ns : String)
    (h : ensureWatchNamespaceGrantsForNamespace cluster cp ns ≠ none) :
    ensureWatchNamespaceGrantsForNamespace cluster cp ns = some (.grantMissing ns cp.ns) := by
  unfold ensureWatchNamespaceGrantsForNamespace at h ⊢
  split at h
  · exact absurd rfl h
  · rename_i hcond
    rw [if_neg hcond]

/-- The grant check succeeds iff some grant in the namespace matches the
ControlPlane. -/
theorem ensureGrants_none_iff (cluster : GrantsByNamespace) (cp : CPForGrants) (ns : String) :
    ensureWatchNamespaceGrantsForNamespace cluster cp ns = none ↔
      ∃ g ∈ grantsIn cluster ns, grantMatches cp g = true := by
  unfold ensureWatchNamespaceGrantsForNamespace
  split
  · rename_i hany
    simp only [List.any_eq_true] at hany
    exact ⟨fun _ => hany, fun _ => rfl⟩
  · rename_i hany
    simp only [List.any_eq_true] at hany
    constructor
    · intro hcontra
      simp at hcontra
    · intro hex
      exact absurd hex hany

/-- If some listed namespace fails the grant check, the List-mode loop
returns the grant-missing error of the first such namespace. -/
theorem validateListLoop_err (cluster : GrantsByNamespace) (cp : CPForGrants)
    (l : List String)
    (h : ∃ ns ∈ l, ensureWatchNamespaceGrantsForNamespace cluster cp ns ≠ none) :
    ∃ ns ∈ l,
      ensureWatchNamespaceGrantsForNamespace cluster cp ns = some (.grantMissing ns cp.ns) ∧
      (validateListLoop cluster cp l).2 = some (.grantMissing ns cp.ns) := by
  induction l with
  | nil => simp at h
  | cons ns rest ih =>
    by_cases hns : ensureWatchNamespaceGrantsForNamespace cluster cp ns = none
    · have hrest : ∃ x ∈ rest, ensureWatchNamespaceGrantsForNamespace cluster cp x ≠ none := by
        rcases h with ⟨x, hx, hxe⟩
        rcases List.mem_cons.mp hx with rfl | hx2
        · exact absurd hns hxe
        · exact ⟨x, hx2, hxe⟩
      obtain ⟨x, hx, hxeq, hloop⟩ := ih hrest
      refine ⟨x, by simp [hx], hxeq, ?_⟩
      simp [validateListLoop, hns, hloop]
    · have heq := ensureGrants_ne_none cluster cp ns hns
      refine ⟨ns, by simp, heq, ?_⟩
      simp [validateListLoop, heq]

/-- C5: watch mode All returns no namespaces and no error for every
grant state; mode Own returns exactly the ControlPlane's own namespace
for every grant state (no grant lookup can influence it); mode List with
every listed namespace granted returns the listed namespaces with the own
namespace appended. -/
theorem C5_validateWatchNamespaceGrants (cluster : GrantsByNamespace) (cp : CPForGrants)
    (wn : WatchNamespaces) (h : cp.watchNamespaces = some wn) :
    (wn.type = "All" → validateWatchNamespaceGrants cluster cp = ([], none)) ∧
    (wn.type = "Own" → validateWatchNamespaceGrants cluster cp = ([cp.ns], none)) ∧
    (wn.type = "List" →
      (∀ ns ∈ wn.list, ∃ g ∈ grantsIn cluster ns, grantMatches cp g = true) →
      validateWatchNamespaceGrants cluster cp = (wn.list ++ [cp.ns], none)) := by
  refine ⟨?_, ?_, ?_⟩
  · intro ht
    simp [validateWatchNamespaceGrants, h, ht]
  · intro ht
    simp [validateWatchNamespaceGrants, h, ht]
  · intro ht hg
    have hall : ∀ ns ∈ wn.list, ensureWatchNamespaceGrantsForNamespace cluster cp ns = none :=
      fun ns hns => (ensureGrants_none_iff cluster cp ns).mpr (hg ns hns)
    simp [validateWatchNamespaceGrants, h, ht,
      validateListLoop_all_granted cluster cp wn.list hall]

/-- C5 witness: the theorem applied to concrete states for each of the
three modes. -/
theorem C5_validateWatchNamespaceGrants_witness :
    validateWatchNamespaceGrants [] { ns := "cpns", watchNamespaces := some ⟨"All", []⟩ } =
      ([], none) ∧
    validateWatchNamespaceGrants [] { ns := "cpns", watchNamespaces := some ⟨"Own", []⟩ } =
      (["cpns"], none) ∧
    validateWatchNamespaceGrants
      [("nsa", [⟨[⟨"gateway-operator.konghq.com", "ControlPlane", "cpns"⟩]⟩])]
      { ns := "cpns", watchNamespaces := some ⟨"List", ["nsa"]⟩ } =
      (["nsa", "cpns"], none) :=
  ⟨(C5_validateWatchNamespaceGrants [] _ _ rfl).1 rfl,
   (C5_validateWatchNamespaceGrants [] _ _ rfl).2.1 rfl,
   by
    have := (C5_validateWatchNamespaceGrants
      [("nsa", [⟨[⟨"gateway-operator.konghq.com", "ControlPlane", "cpns"⟩]⟩])]
      { ns := "cpns", watchNamespaces := some ⟨"List", ["nsa"]⟩ } _ rfl).2.2 rfl (by decide)
    simpa using this⟩

/-- C6: in watch mode List, if some listed namespace has no grant whose
`from` entries match the ControlPlane's group, kind and namespace, the
validation fails with a grant-missing error naming such an offending
namespace; if every listed namespace has a matching grant, the validation
succeeds. -/
theorem C6_grantMissing (cluster : GrantsByNamespace) (cp : CPForGrants)
    (wn : WatchNamespaces) (h : cp.watchNamespaces = some wn) (ht : wn.type = "List") :
    ((∃ ns ∈ wn.list, ∀ g ∈ grantsIn cluster ns, grantMatches cp g = false) →
       ∃ ns ∈ wn.list,
         (∀ g ∈ grantsIn cluster ns, grantMatches cp g = false) ∧
         (validateWatchNamespaceGrants cluster cp).2 = some (.grantMissing ns cp.ns)) ∧
    ((∀ ns ∈ wn.list, ∃ g ∈ grantsIn cluster ns, grantMatches cp g = true) →
       (validateWatchNamespaceGrants cluster cp).2 = none) := by
  have hval : validateWatchNamespaceGrants cluster cp = validateListLoop cluster cp wn.list := by
    simp [validateWatchNamespaceGrants, h, ht]
  constructor
  · intro hex
    have hex2 : ∃ ns ∈ wn.list, ensureWatchNamespaceGrantsForNamespace cluster cp ns ≠ none := by
      obtain ⟨ns, hns, hall⟩ := hex
      refine ⟨ns, hns, ?_⟩
      intro hnone
      obtain ⟨g, hg, hm⟩ := (ensureGrants_none_iff cluster cp ns).mp hnone
      have := hall g hg
      rw [hm] at this
      cases this
    obtain ⟨ns, hns, heq, hloop⟩ := validateListLoop_err cluster cp wn.list hex2
    refine ⟨ns, hns, ?_, ?_⟩
    · intro g hg
      by_contra hgm
      have hnone : ensureWatchNamespaceGrantsForNamespace cluster cp ns = none :=
        (ensureGrants_none_iff cluster cp ns).mpr ⟨g, hg, by simpa using hgm⟩
      rw [hnone] at heq
      cases heq
    · rw [hval]
      exact hloop
  · intro hall
    have hloop := validateListLoop_all_granted cluster cp wn.list
      (fun ns hns => (ensureGrants_none_iff cluster cp ns).mpr (hall ns hns))
    rw [hval, hloop]

/-- C6 witness: the theorem applied to a concrete state with one listed
namespace and no grants at all. -/
theorem C6_grantMissing_witness :
    ∃ ns ∈ ["nsb"],
      (∀ g ∈ grantsIn [] ns, grantMatches { ns := "cpns", watchNamespaces := some ⟨"List", ["nsb"]⟩ } g = false) ∧
      (validateWatchNamespaceGrants [] { ns := "cpns", watchNamespaces := some ⟨"List", ["nsb"]⟩ }).2 =
        some (.grantMissing ns "cpns") :=
  (C6_grantMissing [] { ns := "cpns", watchNamespaces := some ⟨"List", ["nsb"]⟩ } _ rfl rfl).1
    (by decide)

/-- The recomputed reference list is a permutation of the applied
dependents' refs. -/
theorem computeRefs_perm (items : List Dependent) :
    (computeRefs items).Perm
      ((items.filter (fun d => hasExtensionAppliedCondition d.conditions)).map
        (fun d => { name := d.name, ns := d.ns })) :=
  List.perm_insertionSort _ _

/-- The recomputed reference list is sorted ascending by the
namespace/name key. -/
theorem computeRefs_sorted (items : List Dependent) :
    List.Sorted (fun a b => refKey a ≤ refKey b) (computeRefs items) :=
  List.sorted_insertionSort _ _

/-- The status produced by `ensureExtendablesReferencesInStatus` always
carries the recomputed reference lists, whatever the write outcome. -/
theorem ensureRefs_status (st : ExtStatus) (dps cps : List Dependent) (w : WriteOutcome) :
    (ensureExtendablesReferencesInStatus st dps cps w).status =
      { st with dataPlaneRefs := computeRefs dps, controlPlaneRefs := computeRefs cps } := by
  unfold ensureExtendablesReferencesInStatus
  cases w <;> dsimp only <;> split <;> rfl

/-- C7: the recomputed status reference lists contain exactly the
dependents whose KonnectExtensionApplied condition is True (as a
permutation of the filtered refs), each sorted ascending by
namespace/name, and when the recomputed status equals the stored status
no write is performed (and no requeue or error is produced). -/
theorem C7_ensureExtendablesReferencesInStatus (st : ExtStatus) (dps cps : List Dependent)
    (w : WriteOutcome) :
    (ensureExtendablesReferencesInStatus st dps cps w).status.dataPlaneRefs.Perm
      ((dps.filter (fun d => hasExtensionAppliedCondition d.conditions)).map
        (fun d => { name := d.name, ns := d.ns })) ∧
    List.Sorted (fun a b => refKey a ≤ refKey b)
      (ensureExtendablesReferencesInStatus st dps cps w).status.dataPlaneRefs ∧
    (ensureExtendablesReferencesInStatus st dps cps w).status.controlPlaneRefs.Perm
      ((cps.filter (fun d => hasExtensionAppliedCondition d.conditions)).map
        (fun d => { name := d.name, ns := d.ns })) ∧
    List.Sorted (fun a b => refKey a ≤ refKey b)
      (ensureExtendablesReferencesInStatus st dps cps w).status.controlPlaneRefs ∧
    ({ st with dataPlaneRefs := computeRefs dps, controlPlaneRefs := computeRefs cps } = st →
      ensureExtendablesReferencesInStatus st dps cps w = ⟨st, false, none, false⟩) := by
  refine ⟨?_, ?_, ?_, ?_, ?_⟩
  · rw [ensureRefs_status]
    exact computeRefs_perm dps
  · rw [ensureRefs_status]
    exact computeRefs_sorted dps
  · rw [ensureRefs_status]
    exact computeRefs_perm cps
  · rw [ensureRefs_status]
    exact computeRefs_sorted cps
  · intro heq
    unfold ensureExtendablesReferencesInStatus
    rw [if_pos heq, heq]

/-- C7 witness: the theorem applied to a concrete dependent pair (one
applied, one not) and to a concrete unchanged status. -/
theorem C7_witness :
    (ensureExtendablesReferencesInStatus ⟨[], [], 0⟩
      [⟨"d1", "nsa", [⟨"KonnectExtensionApplied", .condTrue, "ok"⟩]⟩,
       ⟨"d2", "nsa", [⟨"KonnectExtensionApplied", .condFalse, "no"⟩]⟩]
      [] .ok).status.dataPlaneRefs.Perm [{ name := "d1", ns := "nsa" }] ∧
    ensureExtendablesReferencesInStatus ⟨[], [], 0⟩ [] [] .ok = ⟨⟨[], [], 0⟩, false, none, false⟩ := by
  constructor
  · have h := (C7_ensureExtendablesReferencesInStatus ⟨[], [], 0⟩
      [⟨"d1", "nsa", [⟨"KonnectExtensionApplied", .condTrue, "ok"⟩]⟩,
       ⟨"d2", "nsa", [⟨"KonnectExtensionApplied", .condFalse, "no"⟩]⟩] [] .ok).1
    convert h using 2
  · exact (C7_ensureExtendablesReferencesInStatus ⟨[], [], 0⟩ [] [] .ok).2.2.2.2 rfl

/-- C8: when the recomputed status differs and the status write hits a
conflict, the pass requeues with a nil error; a non-conflict write
failure is returned as the wrapped error without requeueing. -/
theorem C8_writeConflict (st : ExtStatus) (dps cps : List Dependent) (m : String)
    (hchanged :
      { st with dataPlaneRefs := computeRefs dps, controlPlaneRefs := computeRefs cps } ≠ st) :
    ensureExtendablesReferencesInStatus st dps cps .conflict =
      ⟨{ st with dataPlaneRefs := computeRefs dps, controlPlaneRefs := computeRefs cps },
       true, none, true⟩ ∧
    (ensureExtendablesReferencesInStatus st dps cps (.otherErr m)).err =
      some ("failed to update KonnectExtension ControlPlane and DataPlane references in status: " ++ m) ∧
    (ensureExtendablesReferencesInStatus st dps cps (.otherErr m)).requeue = false := by
  refine ⟨?_, ?_, ?_⟩
  · unfold ensureExtendablesReferencesInStatus
    rw [if_neg hchanged]
  · unfold ensureExtendablesReferencesInStatus
    rw [if_neg hchanged]
  · unfold ensureExtendablesReferencesInStatus
    rw [if_neg hchanged]

/-- C8 witness: the theorem applied to a concrete changed status with a
conflicting and a failing write. -/
theorem C8_writeConflict_witness :
    ensureExtendablesReferencesInStatus ⟨[{ name := "x", ns := "y" }], [], 0⟩ [] [] .conflict =
      ⟨⟨[], [], 0⟩, true, none, true⟩ ∧
    (ensureExtendablesReferencesInStatus ⟨[{ name := "x", ns := "y" }], [], 0⟩ [] []
      (.otherErr "boom")).err =
      some "failed to update KonnectExtension ControlPlane and DataPlane references in status: boom" := by
  have h := C8_writeConflict ⟨[{ name := "x", ns := "y" }], [], 0⟩ [] [] "boom" (by decide)
  exact ⟨h.1, h.2.1⟩

/-- The upserted condition is present after `setCondition`. -/
theorem mem_setCondition (c : Condition) (l : List Condition) : c ∈ setCondition c l := by
  induction l with
  | nil => simp [setCondition]
  | cons x xs ih =>
    unfold setCondition
    split
    · simp
    · simp [ih]

/-- C9: a reference resolving to an existing KonnectGatewayControlPlane
without the Programmed condition True yields no control plane, the
distinguished not-programmed error, and the ControlPlaneRefValid
condition set False with reason Invalid on the extension; an unresolved
reference yields no control plane and the NotFound error; the two errors
are distinct. -/
theorem C9_getGatewayKonnectControlPlane (cluster : List KGCP) (ext : KonnectExt) :
    (∀ cp, resolveControlPlaneRef cluster ext = some cp →
       hasConditionTrue programmedConditionType cp.conditions = false →
       (getGatewayKonnectControlPlane cluster ext).cp = none ∧
       (getGatewayKonnectControlPlane cluster ext).err = some .notProgrammed ∧
       Condition.mk controlPlaneRefValidType .condFalse reasonInvalid ∈
         (getGatewayKonnectControlPlane cluster ext).ext.conditions) ∧
    (resolveControlPlaneRef cluster ext = none →
       (getGatewayKonnectControlPlane cluster ext).cp = none ∧
       (getGatewayKonnectControlPlane cluster ext).err =
         some (.notFound "KonnectGatewayControlPlane")) ∧
    (∀ d, KonnectErr.notProgrammed ≠ KonnectErr.notFound d) := by
  refine ⟨?_, ?_, ?_⟩
  · intro cp hres hprog
    unfold getGatewayKonnectControlPlane
    rw [hres]
    dsimp only
    rw [if_pos (by simp [hprog])]
    exact ⟨rfl, rfl, mem_setCondition _ _⟩
  · intro hres
    unfold getGatewayKonnectControlPlane
    rw [hres]
    exact ⟨rfl, rfl⟩
  · intro d h
    cases h

/-- C9 witness: the theorem applied to a concrete cluster with one
unprogrammed control plane, once resolved and once missed. -/
theorem C9_witness :
    ((getGatewayKonnectControlPlane
        [⟨"cp1", "ns1", "kid1", []⟩]
        ⟨"ns1", .konnectNamespacedRef "cp1", []⟩).cp = none ∧
     (getGatewayKonnectControlPlane
        [⟨"cp1", "ns1", "kid1", []⟩]
        ⟨"ns1", .konnectNamespacedRef "cp1", []⟩).err = some .notProgrammed ∧
     Condition.mk controlPlaneRefValidType .condFalse reasonInvalid ∈
       (getGatewayKonnectControlPlane
          [⟨"cp1", "ns1", "kid1", []⟩]
          ⟨"ns1", .konnectNamespacedRef "cp1", []⟩).ext.conditions) ∧
    ((getGatewayKonnectControlPlane
        [⟨"cp1", "ns1", "kid1", []⟩]
        ⟨"ns1", .konnectNamespacedRef "missing", []⟩).cp = none ∧
     (getGatewayKonnectControlPlane
        [⟨"cp1", "ns1", "kid1", []⟩]
        ⟨"ns1", .konnectNamespacedRef "missing", []⟩).err =
       some (.notFound "KonnectGatewayControlPlane")) :=
  ⟨(C9_getGatewayKonnectControlPlane [⟨"cp1", "ns1", "kid1", []⟩]
      ⟨"ns1", .konnectNamespacedRef "cp1", []⟩).1
      ⟨"cp1", "ns1", "kid1", []⟩ (by decide) (by decide),
   (C9_getGatewayKonnectControlPlane [⟨"cp1", "ns1", "kid1", []⟩]
      ⟨"ns1", .konnectNamespacedRef "missing", []⟩).2.1 (by decide)⟩
